import Mathlib

/-!
Shallow embedding of the request-authorization, tenant-isolation, audit and
external-sync pipeline of the vendor-management back end, together with the
theorems settling the spec claims about it.

Sources embedded:
* `src/backend/src/middleware/auth.js` (`authenticate`, `authorize`)
* `src/backend/src/middleware/tenantMiddleware.js` (`tenantMiddleware`)
* `src/backend/src/middleware/auditLogger.js` (`auditLogger`, `sanitizeBody`)
* `src/backend/src/routes/contract.js` (`GET /:id`, `POST /:id/lock`)
* `src/backend/src/routes/procurement.js` (purchase-order create and manual
  sync, `syncPOToERP`)
* `src/backend/src/routes/performance.js` (penalty create / approve)
* `src/backend/src/routes/risk.js` (`fetchRiskData`, `calculateRiskLevel`,
  `checkRiskThresholds`, `POST /assessments`)

Databases are embedded as lists of rows; parameterized SQL queries become
list filters/maps over those rows; the JS middleware chain becomes explicit
function composition; fallible remote calls are `Except`-valued parameters
so that every behaviour of the unreliable dependency is quantified over.
-/

namespace VendorMgmt

/-- JSON-like values carried in request bodies: the shallow embedding of the
dynamically typed JS values the middleware manipulates. -/
inductive JValue where
  | str (s : String)
  | num (n : Int)
  | jbool (b : Bool)
  | jnull
  deriving DecidableEq

/-- JS truthiness of a `JValue`: the empty string, zero, `false` and `null`
are falsy, everything else is truthy. -/
def JValue.truthy : JValue → Bool
  | .str s => s != ""
  | .num n => n != 0
  | .jbool b => b
  | .jnull => false

/-- JS `String.prototype.startsWith`, embedded over character lists so that
it is kernel-computable. -/
def strStartsWith (s pre : String) : Bool := pre.toList.isPrefixOf s.toList

/-- The request-context user attached by `authenticate` (`req.user` in
`middleware/auth.js`): id, email, tenant id and role, all copied from the
persisted user row, never from the client. -/
structure UserCtx where
  id : String
  email : String
  tenant_id : String
  role : String
  deriving DecidableEq

/-- One row of the `users JOIN tenants` relation read by `authenticate`
(`SELECT u.*, t.id as tenant_id, ... FROM users u JOIN tenants t ...`). -/
structure UserRow where
  id : String
  email : String
  tenant_id : String
  role : String
  user_status : String
  tenant_status : String
  deriving DecidableEq

/-- Outcome of `jwt.verify(token, JWT_SECRET)`: decoded claims carrying the
user id, a `TokenExpiredError`, or a `JsonWebTokenError` (bad signature). -/
inductive JwtResult where
  | ok (userId : String)
  | expiredError
  | invalidError
  deriving DecidableEq

/-- Result of running the `authenticate` middleware: the response it wrote
(if any), the attached user context, and how many database reads/writes it
performed on the way. `resStatus = none` means the middleware called
`next()` and the downstream handler runs. -/
structure AuthOutcome where
  resStatus : Option Nat
  resCode : Option String
  user : Option UserCtx
  dbReads : Nat
  dbWrites : Nat
  deriving DecidableEq

/-- The user lookup of `authenticate`:
`WHERE u.id = $1 AND u.status = 'active' AND t.status = 'active'`. -/
def findActiveUser (users : List UserRow) (uid : String) : Option UserRow :=
  (users.filter
    (fun u => u.id == uid && u.user_status == "active" && u.tenant_status == "active")).head?

/-- `middleware/auth.js` `authenticate`: a missing or non-`Bearer` header is
rejected with `AUTH_REQUIRED` before anything else; the token is verified
before the user lookup, an expired token yielding `TOKEN_EXPIRED` and a bad
signature `INVALID_TOKEN`; only a verified token reaches the single user
lookup, and an unknown/inactive user is rejected with `USER_NOT_FOUND`. -/
def authenticate (users : List UserRow) (jwtVerify : String → JwtResult)
    (authHeader : Option String) : AuthOutcome :=
  match authHeader with
  | none => ⟨some 401, some "AUTH_REQUIRED", none, 0, 0⟩
  | some h =>
    if strStartsWith h "Bearer " then
      match jwtVerify (h.drop 7) with
      | .expiredError => ⟨some 401, some "TOKEN_EXPIRED", none, 0, 0⟩
      | .invalidError => ⟨some 401, some "INVALID_TOKEN", none, 0, 0⟩
      | .ok uid =>
        match findActiveUser users uid with
        | none => ⟨some 401, some "USER_NOT_FOUND", none, 1, 0⟩
        | some u => ⟨none, none, some ⟨u.id, u.email, u.tenant_id, u.role⟩, 1, 0⟩
    else ⟨some 401, some "AUTH_REQUIRED", none, 0, 0⟩

/-- A downstream business handler executes iff the middleware wrote no
response and called `next()`. -/
def handlerRuns (o : AuthOutcome) : Bool := o.resStatus.isNone

/-- Outcome of the `authorize(...allowedRoles)` middleware. A denial carries
the declared role set and the caller's actual role, exactly as the JSON
response does (`required`, `current`). -/
inductive AuthzOutcome where
  | noAuth (resStatus : Nat) (code : String)
  | denied (resStatus : Nat) (code : String) (required : List String) (current : String)
  | proceed
  deriving DecidableEq

/-- `middleware/auth.js` `authorize(...allowedRoles)`: no user context means
401 `AUTH_REQUIRED`; otherwise a pure `allowedRoles.includes(req.user.role)`
membership test, denial answering 403 `PERMISSION_DENIED` together with the
required role set and the caller's role. -/
def authorize (allowedRoles : List String) (user : Option UserCtx) : AuthzOutcome :=
  match user with
  | none => .noAuth 401 "AUTH_REQUIRED"
  | some u =>
    if allowedRoles.contains u.role then .proceed
    else .denied 403 "PERMISSION_DENIED" allowedRoles u.role

/-- A row of the `tenants` table, as read by `tenantMiddleware`. -/
structure Tenant where
  id : String
  name : String
  status : String
  deriving DecidableEq

/-- Result of the `tenantMiddleware` stage: a written rejection response,
the resolved tenant id attached as `req.tenantId`, or skipped (auth
routes). -/
inductive TenantResolution where
  | rejected (resStatus : Nat) (code : String)
  | resolved (tenantId : String)
  | skipped
  deriving DecidableEq

/-- `middleware/tenantMiddleware.js` `tenantMiddleware`: auth routes are
exempt; otherwise the tenant id is taken from the authenticated user
(`req.user?.tenant_id`), with an optional development-only fallback to
`DEFAULT_TENANT_ID` when that is absent/falsy; a request with no tenant id
is rejected 401 `TENANT_REQUIRED`; the tenant row is then looked up, a
missing row rejecting 404 `TENANT_NOT_FOUND` and a non-active one 403
`TENANT_INACTIVE`; on success `req.tenantId` is set to the looked-up
tenant's id. -/
def tenantMiddleware (tenants : List Tenant) (originalUrl : String)
    (user : Option UserCtx) (isDev : Bool) (devDefault : Option String) :
    TenantResolution :=
  if strStartsWith originalUrl "/api/v1/auth" then .skipped
  else
    let fromUser : String := match user with
      | some u => u.tenant_id
      | none => ""
    let tid : String :=
      if fromUser == "" && isDev then (devDefault.getD "") else fromUser
    if tid == "" then .rejected 401 "TENANT_REQUIRED"
    else
      match (tenants.filter (fun t => t.id == tid)).head? with
      | none => .rejected 404 "TENANT_NOT_FOUND"
      | some t =>
        if t.status != "active" then .rejected 403 "TENANT_INACTIVE"
        else .resolved t.id

/-- A row of the `contracts` table (the columns the embedded routes read or
write). -/
structure Contract where
  id : String
  tenant_id : String
  vendor_id : String
  contract_type : String
  content : String
  status : String
  locked_by : Option String
  deriving DecidableEq

/-- A row of the `vendors` table (the columns the embedded routes read). -/
structure Vendor where
  id : String
  name : String
  status : String
  deriving DecidableEq

/-- The query of `GET /api/v1/contracts/:id`:
`SELECT ... FROM contracts c JOIN vendors v ON c.vendor_id = v.id WHERE
c.id = $1 AND c.tenant_id = $2`, with `$2 = req.tenantId`. -/
def contractByIdQuery (contracts : List Contract) (vendors : List Vendor)
    (cid tid : String) : List Contract :=
  contracts.filter
    (fun c => c.id == cid && c.tenant_id == tid && vendors.any (fun v => v.id == c.vendor_id))

/-- Response of `GET /api/v1/contracts/:id`. -/
inductive GetContractResult where
  | notFound (resStatus : Nat)
  | found (resStatus : Nat) (c : Contract)
  deriving DecidableEq

/-- `routes/contract.js` `GET /:id`: an empty query result answers 404
`Contract not found`, otherwise 200 with the row. -/
def getContractById (contracts : List Contract) (vendors : List Vendor)
    (tid cid : String) : GetContractResult :=
  match contractByIdQuery contracts vendors cid tid with
  | [] => .notFound 404
  | c :: _ => .found 200 c

/-- The per-row effect of the `UPDATE` in `POST /:id/lock`:
`SET status = 'locked', locked_by = $1 WHERE id = $2 AND tenant_id = $3 AND
status = 'in_review'`. -/
def lockOne (uid cid tid : String) (c : Contract) : Contract :=
  if c.id == cid && c.tenant_id == tid && c.status == "in_review"
  then { c with status := "locked", locked_by := some uid }
  else c

/-- `routes/contract.js` `POST /:id/lock`: the conditional update applied to
the whole table, plus the `RETURNING *` row (if any). -/
def lockContract (contracts : List Contract) (uid cid tid : String) :
    List Contract × Option Contract :=
  (contracts.map (lockOne uid cid tid),
   ((contracts.filter
       (fun c => c.id == cid && c.tenant_id == tid && c.status == "in_review")).head?).map
     (lockOne uid cid tid))

/-- JS `String.prototype.toLowerCase`, embedded over character lists so that
it is kernel-computable. -/
def strToLower (s : String) : String := String.mk (s.toList.map Char.toLower)

/-- JS `String.prototype.includes` (substring test), embedded over character
lists so that it is kernel-computable. -/
def strIncludes (s sub : String) : Bool :=
  (List.range (s.length + 1)).any (fun i => sub.toList.isPrefixOf (s.toList.drop i))

/-- Property read on a JS object, embedded as an assoc list:
`b.k` is `none` when the property is absent (JS `undefined`). -/
def getField : List (String × JValue) → String → Option JValue
  | [], _ => none
  | p :: rest, k => if p.1 == k then some p.2 else getField rest k

/-- Property assignment on a JS object: overwrites the value of key `k`
where present, leaves the object unchanged otherwise. -/
def setField : List (String × JValue) → String → JValue → List (String × JValue)
  | [], _, _ => []
  | p :: rest, k, v => (if p.1 == k then (p.1, v) else p) :: setField rest k v

/-- JS `if (obj.k)`: the property exists and its value is truthy. -/
def fieldTruthy (b : List (String × JValue)) (k : String) : Bool :=
  match getField b k with
  | some v => v.truthy
  | none => false

/-- One `if (sanitized.k) sanitized.k = '[REDACTED]'` statement of
`sanitizeBody` (`middleware/auditLogger.js`): the field is overwritten with
the placeholder only when it currently holds a truthy value. -/
def redactStep (k : String) (b : List (String × JValue)) : List (String × JValue) :=
  if fieldTruthy b k then setField b k (JValue.str "[REDACTED]") else b

/-- The three sequential redaction statements of `sanitizeBody`, applied to
the shallow copy `{...body}`. -/
def sanitizeFields (b : List (String × JValue)) : List (String × JValue) :=
  redactStep "token" (redactStep "password_hash" (redactStep "password" b))

/-- `middleware/auditLogger.js` `sanitizeBody`: a missing body stays `null`,
otherwise the in-memory copy is redacted field by field. -/
def sanitizeBody (body : Option (List (String × JValue))) :
    Option (List (String × JValue)) :=
  body.map sanitizeFields

/-- JS `a || b` lifted to a possibly-absent left operand: keeps `a` when it
is present and truthy, otherwise falls through to `b`. -/
def jsOrElse (a : Option JValue) (b : JValue) : JValue :=
  match a with
  | some v => if v.truthy then v else b
  | none => b

/-- JS `.length` access: defined for strings (the embedded value universe
carries no nested arrays, whose `.length` would also be defined). -/
def jsLength : JValue → Option JValue
  | .str s => some (.num s.length)
  | _ => none

/-- `middleware/auditLogger.js` `sanitizeResponse`: only metadata is kept —
`success` as-is (or null when absent), `error` and `count` through JS `||`
fallbacks ending in null. -/
def sanitizeResponse (response : Option (List (String × JValue))) :
    Option (List (String × JValue)) :=
  match response with
  | none => none
  | some r =>
    some [("success", (getField r "success").getD JValue.jnull),
          ("error", jsOrElse (getField r "error") JValue.jnull),
          ("count", jsOrElse (getField r "count")
            (jsOrElse ((getField r "data").bind jsLength) JValue.jnull))]

/-- The `AUDITABLE_ACTIONS` constant of `middleware/auditLogger.js`. -/
def AUDITABLE_ACTIONS : List String :=
  ["CREATE", "UPDATE", "DELETE", "LOCK", "UNLOCK",
   "APPROVE", "REJECT", "OVERRIDE", "DOWNLOAD",
   "EXPORT", "ACCESS_GRANT", "ACCESS_REVOKE",
   "CONFIG_CHANGE", "INTEGRATION_CREATE", "INTEGRATION_UPDATE"]

/-- `extractModule` of `middleware/auditLogger.js`. -/
def extractModule (path : String) : String :=
  if strIncludes path "/rfp" then "rfp"
  else if strIncludes path "/contract" then "contract"
  else if strIncludes path "/procurement" then "procurement"
  else if strIncludes path "/performance" then "performance"
  else if strIncludes path "/risk" then "risk"
  else if strIncludes path "/analytics" then "analytics"
  else if strIncludes path "/helpdesk" then "helpdesk"
  else if strIncludes path "/survey" then "survey"
  else if strIncludes path "/integration" then "integration"
  else if strIncludes path "/admin" then "admin"
  else "general"

/-- The request envelope as the audit middleware sees it at `finish` time. -/
structure Req where
  method : String
  path : String
  user : Option UserCtx
  tenantId : Option String
  params_id : Option String
  body : Option (List (String × JValue))
  ip : String
  user_agent : String
  deriving DecidableEq

/-- The structured `details` blob stored with an audit row. -/
structure AuditDetails where
  method : String
  path : String
  body : Option (List (String × JValue))
  status_code : Nat
  response : Option (List (String × JValue))
  ip_address : String
  user_agent : String
  deriving DecidableEq

/-- One row of `audit_logs` as assembled by `auditLogger`. -/
structure AuditRow where
  tenant_id : String
  user_id : Option String
  action : String
  resource_type : String
  resource_id : JValue
  module : String
  details : AuditDetails
  ip_address : String
  user_agent : String
  deriving DecidableEq

/-- The `shouldAudit` disjunction of `auditLogger`: an auditable action name
appears in the method or (lower-cased) in the path, or the status is an
error, or the request is authenticated. -/
def shouldAudit (req : Req) (statusCode : Nat) : Bool :=
  AUDITABLE_ACTIONS.any
      (fun a => strIncludes req.method a || strIncludes req.path (strToLower a))
    || decide (400 ≤ statusCode) || req.user.isSome

/-- The `res.on('finish')` hook of `auditLogger`: when `shouldAudit` holds
and a tenant id was resolved, exactly one insert into `audit_logs` is
attempted, its `details.body` being the sanitized in-memory copy of the
request body; otherwise no insert is attempted. The returned list holds the
rows whose insertion is attempted. -/
def auditFinish (req : Req) (statusCode : Nat)
    (responseBody : Option (List (String × JValue))) : List AuditRow :=
  if shouldAudit req statusCode then
    match req.tenantId with
    | some tid =>
      [{ tenant_id := tid,
         user_id := req.user.map (fun u => u.id),
         action := req.method ++ " " ++ req.path,
         resource_type := req.path,
         resource_id :=
           jsOrElse (req.params_id.map JValue.str)
             (jsOrElse (req.body.bind (fun b => getField b "id")) JValue.jnull),
         module := extractModule req.path,
         details := { method := req.method, path := req.path,
                      body := sanitizeBody req.body, status_code := statusCode,
                      response := sanitizeResponse responseBody,
                      ip_address := req.ip, user_agent := req.user_agent },
         ip_address := req.ip, user_agent := req.user_agent }]
    | none => []
  else []

/-- A finished HTTP exchange: status code and JSON body. -/
structure HttpResponse where
  statusCode : Nat
  body : Option (List (String × JValue))
  deriving DecidableEq

/-- Observable end state of one request: the response the client received,
the audit rows actually persisted, and the process-level error log. -/
structure FinalOutcome where
  response : HttpResponse
  auditPersisted : List AuditRow
  errorLog : List String
  deriving DecidableEq

/-- The whole request lifecycle around a handler: the handler's response is
sent, then the `finish` hook attempts the audit insert; an insert failure is
caught (`.catch`) and written to the process error log
(`console.error('Audit log insertion failed:', err)`), never propagated to
the response. -/
def completeRequest (req : Req) (resp : HttpResponse) (insertErr : Option String) :
    FinalOutcome :=
  match auditFinish req resp.statusCode resp.body with
  | [] => ⟨resp, [], []⟩
  | row :: _ =>
    match insertErr with
    | none => ⟨resp, [row], []⟩
    | some e => ⟨resp, [], ["Audit log insertion failed: " ++ e]⟩

/-- JS `String.prototype.substring(0, n)`, embedded over character lists so
that it is kernel-computable. -/
def strTake (s : String) (n : Nat) : String := String.mk (s.toList.take n)

/-- `SELECT ... WHERE p LIMIT` first-row semantics of a parameterized
query: the first list element satisfying the predicate. -/
def firstWhere {α : Type} (p : α → Bool) : List α → Option α
  | [] => none
  | x :: rest => if p x then some x else firstWhere p rest

/-- A row of `purchase_orders` (schema.sql): `erp_sync_status` defaults to
`'pending'`, `status` to `'draft'`. -/
structure PurchaseOrder where
  id : String
  tenant_id : String
  po_number : String
  contract_id : Option String
  vendor_id : String
  status : String
  total_amount : Int
  currency : String
  line_items : List JValue
  erp_system : Option String
  erp_po_id : Option String
  erp_sync_status : Option String
  erp_sync_error : Option String
  created_by : String
  deriving DecidableEq

/-- Observable steps of the purchase-order persistence and sync pipeline, in
execution order. `syncLogInsert` records the `integration_sync_logs` row the
code attempts to insert (its `integration_id` and `status` parameters). -/
inductive SyncEv where
  | localInsert (poId : String)
  | remoteCreateCall (poId : String) (erp : String)
  | statusUpdate (poId : String) (newStatus : String)
  | syncLogInsert (integration_id : Option String) (logStatus : String)
  deriving DecidableEq

/-- The error raised by the `integration_sync_logs` insert of `syncPOToERP`:
the route hard-codes `null` for `integration_id` (procurement.js, `[null]`
with the comment that it would come from the integrations table), but
schema.sql declares the column `integration_id UUID NOT NULL`, so the
database rejects the row with a not-null violation and the awaited insert
throws. -/
def syncLogNotNullError : String :=
  "null value in column \"integration_id\" violates not-null constraint"

/-- Outcome of one `syncPOToERP` invocation: the database afterwards, the
observable events in order, and the thrown error (if any). -/
structure SyncResult where
  db : List PurchaseOrder
  events : List SyncEv
  err : Option String
  deriving DecidableEq

/-- `routes/procurement.js` `syncPOToERP(poId, erpSystem)`: the (simulated)
remote create call is attempted first — unconditionally, without consulting
`erp_po_id`; when it throws, the error propagates with no local update; when
it returns, the PO is marked `erp_sync_status = 'synced'` with the
remote-assigned id `'ERP-' + poId.substring(0, 8)`, and the function then
attempts the `integration_sync_logs` insert with `null` for the NOT NULL
`integration_id` column — which the database rejects, so the function throws
that violation after the `'synced'` update on every invocation whose remote
part succeeded. It never returns normally. -/
def syncPOToERP (db : List PurchaseOrder) (poId erpSystem : String)
    (remote : Except String Unit) : SyncResult :=
  match remote with
  | .error e => ⟨db, [.remoteCreateCall poId erpSystem], some e⟩
  | .ok _ =>
    ⟨db.map (fun p => if p.id == poId then
        { p with erp_sync_status := some "synced",
                 erp_po_id := some ("ERP-" ++ strTake poId 8) } else p),
      [.remoteCreateCall poId erpSystem, .statusUpdate poId "synced",
       .syncLogInsert none "success"],
      some syncLogNotNullError⟩

/-- The validated body of `POST /api/v1/procurement/purchase-orders`. -/
structure POInput where
  vendor_id : String
  contract_id : Option String
  total_amount : Int
  currency : String
  line_items : List JValue
  erp_system : Option String
  deriving DecidableEq

/-- Outcome of the purchase-order create route. -/
structure CreatePOResult where
  db : List PurchaseOrder
  events : List SyncEv
  resStatus : Nat
  purchase_order : Option PurchaseOrder
  deriving DecidableEq

/-- `routes/procurement.js` `POST /purchase-orders`: the PO row is inserted
(committed, status `'draft'`, sync status defaulted `'pending'`) before any
sync is attempted; when `erp_system` is configured (truthy) the sync runs
inside a try/catch, and the error `syncPOToERP` throws (it always throws:
remote failure, or the sync-log not-null violation after the `'synced'`
update) is caught — the route then annotates the row
`erp_sync_status = 'failed'` with the error message and still answers 201
with the inserted row. `newId`/`poNumber` stand for the DB-generated id and
the generated PO number. -/
def createPurchaseOrder (db : List PurchaseOrder) (tid uid : String)
    (input : POInput) (newId poNumber : String) (remote : Except String Unit) :
    CreatePOResult :=
  let po : PurchaseOrder :=
    { id := newId, tenant_id := tid, po_number := poNumber,
      contract_id := input.contract_id, vendor_id := input.vendor_id,
      status := "draft", total_amount := input.total_amount,
      currency := input.currency, line_items := input.line_items,
      erp_system := input.erp_system, erp_po_id := none,
      erp_sync_status := some "pending", erp_sync_error := none,
      created_by := uid }
  let db1 := db ++ [po]
  match input.erp_system with
  | none => ⟨db1, [.localInsert newId], 201, some po⟩
  | some erp =>
    if erp == "" then ⟨db1, [.localInsert newId], 201, some po⟩
    else
      let r := syncPOToERP db1 newId erp remote
      match r.err with
      | none => ⟨r.db, .localInsert newId :: r.events, 201, some po⟩
      | some e =>
        ⟨r.db.map (fun p => if p.id == newId then
            { p with erp_sync_status := some "failed", erp_sync_error := some e }
          else p),
          .localInsert newId :: (r.events ++ [.statusUpdate newId "failed"]),
          201, some po⟩

/-- Response of the manual `POST /purchase-orders/:id/sync` route. -/
inductive ManualSyncResponse where
  | notFound (resStatus : Nat)
  | noErp (resStatus : Nat)
  | synced (resStatus : Nat) (msg : String)
  | syncFailed (resStatus : Nat) (msg : String) (retryable : Bool)
  deriving DecidableEq

/-- Outcome of the manual sync route. -/
structure ManualSyncResult where
  db : List PurchaseOrder
  events : List SyncEv
  response : ManualSyncResponse
  deriving DecidableEq

/-- `routes/procurement.js` `POST /purchase-orders/:id/sync`: the PO is
looked up by id within the caller's tenant (404 when absent), 400 when no
ERP system is configured; otherwise `syncPOToERP` runs inside a try/catch —
the try branch would answer 200, but since `syncPOToERP` always throws
(remote failure, or the sync-log not-null violation after the `'synced'`
update), the route in fact always answers 503 with `retryable: true`; the
catch performs no further local update (this route does not annotate
failure). -/
def manualSyncPO (db : List PurchaseOrder) (tid poId : String)
    (remote : Except String Unit) : ManualSyncResult :=
  match firstWhere (fun p => p.id == poId && p.tenant_id == tid) db with
  | none => ⟨db, [], .notFound 404⟩
  | some po =>
    match po.erp_system with
    | none => ⟨db, [], .noErp 400⟩
    | some erp =>
      if erp == "" then ⟨db, [], .noErp 400⟩
      else
        let r := syncPOToERP db poId erp remote
        match r.err with
        | none => ⟨r.db, r.events, .synced 200 "PO synced to ERP successfully"⟩
        | some e => ⟨r.db, r.events, .syncFailed 503 e true⟩

/-- Observation helper: look up a purchase order by id. -/
def findPO (db : List PurchaseOrder) (poId : String) : Option PurchaseOrder :=
  firstWhere (fun p => p.id == poId) db

/-- Number of remote ERP create calls in an event trace. -/
def countRemoteCalls (events : List SyncEv) : Nat :=
  (events.filter (fun ev => match ev with
    | .remoteCreateCall _ _ => true
    | _ => false)).length

/-- Two sequential manual sync invocations on the same PO, both remote calls
succeeding; returns the final database and the concatenated event trace. -/
def manualSyncTwice (db : List PurchaseOrder) (tid poId : String) :
    List PurchaseOrder × List SyncEv :=
  (
    (manualSyncPO (manualSyncPO db tid poId (.ok ())).db tid poId (.ok ())).db,
    (manualSyncPO db tid poId (.ok ())).events ++
      (manualSyncPO (manualSyncPO db tid poId (.ok ())).db tid poId (.ok ())).events)

/-- JS `a || b` on an optional string (empty string is falsy), as in
`currency || 'USD'`. -/
def jsStrOr (a : Option String) (b : String) : String :=
  match a with
  | some s => if s == "" then b else s
  | none => b

/-- A row of `penalties` (schema.sql). -/
structure Penalty where
  id : String
  tenant_id : String
  vendor_id : String
  contract_id : Option String
  penalty_type : String
  amount : Int
  currency : String
  reason : String
  ai_suggested : Bool
  ai_rationale : Option String
  status : String
  approved_by : Option String
  created_by : String
  deriving DecidableEq

/-- Result of `checkBiasPatterns` (routes/performance.js). -/
structure BiasCheck where
  flagged : Bool
  rationale : String
  deriving DecidableEq

/-- `routes/performance.js` `checkBiasPatterns`: the current implementation
flags nothing. -/
def checkBiasPatterns (vendorId penaltyType : String) : BiasCheck :=
  { flagged := false, rationale := "No bias patterns detected" }

/-- Validated body of `POST /api/v1/performance/penalties`. -/
structure PenaltyInput where
  vendor_id : String
  contract_id : Option String
  penalty_type : String
  amount : Int
  currency : Option String
  reason : String
  deriving DecidableEq

/-- `routes/performance.js` `POST /penalties`: the row is always inserted
with `status = 'pending'` (hard-coded in the INSERT), `ai_suggested =
false` and the bias-check rationale; the 201 response is advisory-labelled
and requires a separate approval before enforcement. `newId` stands for the
DB-generated id. -/
def createPenalty (db : List Penalty) (tid uid newId : String)
    (input : PenaltyInput) : List Penalty × Penalty :=
  (db ++ [{ id := newId, tenant_id := tid, vendor_id := input.vendor_id,
            contract_id := input.contract_id,
            penalty_type := input.penalty_type, amount := input.amount,
            currency := jsStrOr input.currency "USD", reason := input.reason,
            ai_suggested := false,
            ai_rationale := some (checkBiasPatterns input.vendor_id input.penalty_type).rationale,
            status := "pending", approved_by := none, created_by := uid }],
   { id := newId, tenant_id := tid, vendor_id := input.vendor_id,
     contract_id := input.contract_id,
     penalty_type := input.penalty_type, amount := input.amount,
     currency := jsStrOr input.currency "USD", reason := input.reason,
     ai_suggested := false,
     ai_rationale := some (checkBiasPatterns input.vendor_id input.penalty_type).rationale,
     status := "pending", approved_by := none, created_by := uid })

/-- The per-row effect of the `UPDATE` in `POST /penalties/:id/approve`:
`SET status = 'approved', approved_by = $1 WHERE id = $2 AND tenant_id = $3
AND status = 'pending'`. -/
def approveOne (uid pid tid : String) (p : Penalty) : Penalty :=
  if p.id == pid && p.tenant_id == tid && p.status == "pending"
  then { p with status := "approved", approved_by := some uid }
  else p

/-- `routes/performance.js` `POST /penalties/:id/approve`: the conditional
update applied to the whole table, plus the `RETURNING *` row (its absence
answering 404). -/
def approvePenalty (db : List Penalty) (tid uid pid : String) :
    List Penalty × Option Penalty :=
  (db.map (approveOne uid pid tid),
   (firstWhere
      (fun p => p.id == pid && p.tenant_id == tid && p.status == "pending") db).map
     (approveOne uid pid tid))

/-- `routes/performance.js` `GET /penalties`: a read-only tenant-scoped
filter. -/
def listPenalties (db : List Penalty) (tid : String)
    (vendor_id status_filter : Option String) : List Penalty :=
  db.filter (fun p => p.tenant_id == tid
    && (match vendor_id with | some v => p.vendor_id == v | none => true)
    && (match status_filter with | some s => p.status == s | none => true))

/-- The operations of the penalties surface of `routes/performance.js`. -/
inductive PenaltyOp where
  | createOp (tid uid newId : String) (input : PenaltyInput)
  | approveOp (tid uid pid : String)
  | listOp (tid : String) (vendor_id status_filter : Option String)
  deriving DecidableEq

/-- Effect of one penalties-surface operation on the `penalties` table
(`listOp` is read-only). -/
def applyPenaltyOp (db : List Penalty) : PenaltyOp → List Penalty
  | .createOp tid uid newId input => (createPenalty db tid uid newId input).1
  | .approveOp tid uid pid => (approvePenalty db tid uid pid).1
  | .listOp _ _ _ => db

/-- The risk payload produced by one provider fetch attempt
(`fetchRiskData`'s simulated return value carries a score and provider
data). -/
structure RiskData where
  risk_score : Rat
  rating : String
  deriving DecidableEq

/-- Observable steps of `fetchRiskData`: one entry per (simulated) provider
call — indexed by the loop counter at call time — and one per backoff
sleep, in milliseconds. -/
inductive FetchEv where
  | attemptCall (idx : Nat)
  | backoffWaitMs (ms : Nat)
  deriving DecidableEq

/-- The `maxAttempts` constant of `fetchRiskData` (routes/risk.js). -/
def maxAttempts : Nat := 3

/-- The `while (attempts < maxAttempts)` retry loop of `fetchRiskData`,
embedded with the loop counter `attempts` and fuel `maxAttempts - attempts`
(the guard bounds the iterations, so the fuel-exhausted branch — JS falling
off the loop returning `undefined` — is unreachable from the entry point).
`oc n` is the outcome of the provider call made when the counter holds `n`:
`none` for success returning `data`, `some msg` for a thrown error. After a
failure the counter is incremented; reaching `maxAttempts` throws
`'Failed to fetch risk data after <maxAttempts> attempts: ' + msg`,
otherwise the loop sleeps `Math.pow(2, attempts) * 1000` ms and retries. -/
def fetchRiskDataGo (oc : Nat → Option String) (data : RiskData) :
    Nat → Nat → List FetchEv × Except String RiskData
  | _, 0 => ([], .error "loop exhausted")
  | attempts, fuel + 1 =>
    match oc attempts with
    | none => ([.attemptCall attempts], .ok data)
    | some msg =>
      if attempts + 1 ≥ maxAttempts then
        ([.attemptCall attempts],
         .error ("Failed to fetch risk data after " ++ toString maxAttempts ++
           " attempts: " ++ msg))
      else
        (.attemptCall attempts ::
            .backoffWaitMs (2 ^ (attempts + 1) * 1000) ::
            (fetchRiskDataGo oc data (attempts + 1) fuel).1,
         (fetchRiskDataGo oc data (attempts + 1) fuel).2)

/-- `routes/risk.js` `fetchRiskData`, entered with `attempts = 0`. -/
def fetchRiskData (oc : Nat → Option String) (data : RiskData) :
    List FetchEv × Except String RiskData :=
  fetchRiskDataGo oc data 0 maxAttempts

/-- Number of provider calls in a fetch trace. -/
def countAttempts (events : List FetchEv) : Nat :=
  (events.filter (fun ev => match ev with
    | .attemptCall _ => true
    | _ => false)).length

/-- `routes/risk.js` `calculateRiskLevel`. -/
def calculateRiskLevel (riskScore : Rat) : String :=
  if riskScore ≥ 75 then "critical"
  else if riskScore ≥ 50 then "high"
  else if riskScore ≥ 25 then "medium"
  else "low"

/-- A row of `vendor_risk_assessments` (the columns the route writes). -/
structure RiskAssessment where
  tenant_id : String
  vendor_id : String
  risk_score : Rat
  risk_level : String
  provider : String
  deriving DecidableEq

/-- A row of `vendor_master_consolidated`. -/
structure VendorMasterRow where
  vendor_id : String
  vendor_name : String
  vendor_status : String
  risk_score : Rat
  risk_level : String
  deriving DecidableEq

/-- `routes/risk.js` `updateVendorMaster`: `INSERT ... SELECT FROM vendors
WHERE v.id = $3 ON CONFLICT (vendor_id) DO UPDATE` — no `vendors` row means
no effect; an existing consolidated row is updated in place, otherwise a new
row is appended. -/
def updateVendorMaster (vendors : List Vendor) (vm : List VendorMasterRow)
    (vendorId : String) (score : Rat) (level : String) : List VendorMasterRow :=
  match firstWhere (fun v => v.id == vendorId) vendors with
  | none => vm
  | some v =>
    if vm.any (fun r => r.vendor_id == vendorId) then
      vm.map (fun r => if r.vendor_id == vendorId then
        { r with risk_score := score, risk_level := level } else r)
    else vm ++ [{ vendor_id := vendorId, vendor_name := v.name,
                  vendor_status := v.status, risk_score := score,
                  risk_level := level }]

/-- `routes/risk.js` `checkRiskThresholds`: for a high/critical level the
function builds a `risk_alerts` INSERT whose parameter array evaluates
`req.tenantId`; `req` is not bound in this module-level helper, so that
evaluation throws `ReferenceError: req is not defined` before any row is
written; for other levels the function does nothing. -/
def checkRiskThresholds (vendorId : String) (riskScore : Rat)
    (riskLevel : String) : Except String Unit :=
  if riskLevel == "critical" || riskLevel == "high" then
    .error "req is not defined"
  else .ok ()

/-- Tenant-scoped risk tables touched by `POST /assessments`. -/
structure RiskState where
  assessments : List RiskAssessment
  alerts : List String
  vendorMaster : List VendorMasterRow
  deriving DecidableEq

/-- Response of `POST /api/v1/risk/assessments`. -/
inductive AssessResponse where
  | providerUnavailable (resStatus : Nat) (retryable : Bool)
  | created (resStatus : Nat) (a : RiskAssessment)
  | serverError (resStatus : Nat) (msg : String)
  deriving DecidableEq

/-- `routes/risk.js` `POST /assessments`: a provider-fetch failure answers
503 with `retryable: true` and touches nothing; otherwise the assessment row
is inserted, the consolidated vendor master updated, and
`checkRiskThresholds` runs last — its thrown ReferenceError propagates to
the global error handler, which answers 500 (`INTERNAL_ERROR` default
branch), while the already-inserted row stays in the database. -/
def createAssessment (vendors : List Vendor) (st : RiskState)
    (tid vendor_id provider : String) (fetchResult : Except String RiskData) :
    RiskState × AssessResponse :=
  match fetchResult with
  | .error _ => (st, .providerUnavailable 503 true)
  | .ok rd =>
    let level := calculateRiskLevel rd.risk_score
    let a : RiskAssessment := { tenant_id := tid,
                                vendor_id := vendor_id,
                                risk_score := rd.risk_score,
                                risk_level := level,
                                provider := provider }
    let st1 : RiskState := { st with assessments := st.assessments ++ [a] }
    let st2 : RiskState := { st1 with
                             vendorMaster := updateVendorMaster vendors
                               st1.vendorMaster vendor_id rd.risk_score level }
    match checkRiskThresholds vendor_id rd.risk_score level with
    | .error m => (st2, .serverError 500 ("ReferenceError: " ++ m))
    | .ok _ => (st2, .created 201 a)

/-- C2: for every request to a protected endpoint, `authenticate` checks the
token's presence, signature and expiry before any database lookup and with
zero database writes: a missing or malformed credential answers 401
`AUTH_REQUIRED`, an expired one 401 `TOKEN_EXPIRED`, an invalid-signature
one 401 `INVALID_TOKEN`, each with `dbReads = 0`, and in every rejected case
no business handler executes. -/
theorem auth_checks_precede_db_and_fail_distinctly
    (users : List UserRow) (jv : String → JwtResult) (hdr : Option String) :
    ((hdr = none ∨ ∃ h, hdr = some h ∧ strStartsWith h "Bearer " = false) →
        authenticate users jv hdr = ⟨some 401, some "AUTH_REQUIRED", none, 0, 0⟩) ∧
    (∀ h, hdr = some h → strStartsWith h "Bearer " = true →
        (jv (h.drop 7) = .expiredError →
            authenticate users jv hdr = ⟨some 401, some "TOKEN_EXPIRED", none, 0, 0⟩) ∧
        (jv (h.drop 7) = .invalidError →
            authenticate users jv hdr = ⟨some 401, some "INVALID_TOKEN", none, 0, 0⟩)) ∧
    ((authenticate users jv hdr).dbWrites = 0) ∧
    ((authenticate users jv hdr).resStatus ≠ none →
        handlerRuns (authenticate users jv hdr) = false) := by
  refine ⟨?_, ?_, ?_, ?_⟩
  · rintro (rfl | ⟨h, rfl, hb⟩)
    · rfl
    · simp [authenticate, hb]
  · rintro h rfl hb
    constructor
    · intro hexp
      simp [authenticate, hb, hexp]
    · intro hinv
      simp [authenticate, hb, hinv]
  · cases hdr with
    | none => rfl
    | some h =>
      by_cases hb : strStartsWith h "Bearer "
      · cases hjv : jv (h.drop 7) with
        | ok uid =>
          cases hfa : findActiveUser users uid <;>
            simp [authenticate, hb, hjv, hfa]
        | expiredError => simp [authenticate, hb, hjv]
        | invalidError => simp [authenticate, hb, hjv]
      · simp [authenticate, hb]
  · intro hne
    cases hst : (authenticate users jv hdr).resStatus with
    | none => exact absurd hst hne
    | some s => simp [handlerRuns, hst]

/-- Witness for C2: a concretely expired token is rejected with
`TOKEN_EXPIRED` and no database access. -/
theorem auth_checks_precede_db_witness :
    authenticate [] (fun _ => JwtResult.expiredError) (some "Bearer t") =
      ⟨some 401, some "TOKEN_EXPIRED", none, 0, 0⟩ :=
  ((auth_checks_precede_db_and_fail_distinctly [] (fun _ => JwtResult.expiredError)
      (some "Bearer t")).2.1 "Bearer t" rfl (by decide)).1 rfl

/-- C3: the authorization gate is a pure membership test of the resolved
role in the declared role set: members proceed, non-members are denied with
a 403 response naming both the required role set and the caller's actual
role, and an empty declared role set denies every role (most restrictive
default). -/
theorem authorize_is_membership_and_fails_closed
    (allowedRoles : List String) (u : UserCtx) :
    (u.role ∈ allowedRoles →
        authorize allowedRoles (some u) = .proceed) ∧
    (u.role ∉ allowedRoles →
        authorize allowedRoles (some u) =
          .denied 403 "PERMISSION_DENIED" allowedRoles u.role) ∧
    (authorize [] (some u) = .denied 403 "PERMISSION_DENIED" [] u.role) := by
  refine ⟨?_, ?_, ?_⟩
  · intro hmem
    simp [authorize, hmem]
  · intro hmem
    simp [authorize, hmem]
  · rfl

/-- Witness for C3: a vendor user is denied an operation declared for
`buyer_admin` only, the denial naming both roles. -/
theorem authorize_membership_witness :
    authorize ["buyer_admin"] (some ⟨"u1", "e", "t1", "vendor_user"⟩) =
      AuthzOutcome.denied 403 "PERMISSION_DENIED" ["buyer_admin"] "vendor_user" :=
  (authorize_is_membership_and_fails_closed ["buyer_admin"]
      ⟨"u1", "e", "t1", "vendor_user"⟩).2.1 (by decide)

/-- Helper: an element returned by `List.find?` satisfies the predicate. -/
theorem find?_sat {α : Type} {p : α → Bool} {l : List α} {a : α}
    (h : l.find? p = some a) : p a = true :=
  List.find?_some h

/-- C1: tenant-scoped access uses only the resolved tenant id of the
authenticated user: (1) whenever `tenantMiddleware` resolves a tenant for an
authenticated request, the resolved id is exactly the authenticated user's
`tenant_id` (never a client-supplied value); (2) `authenticate` itself
derives that `tenant_id` from the persisted user row; (3) any contract
returned by `GET /contracts/:id` carries the caller's tenant id; (4) if the
requested id exists only under other tenants, the route answers 404; (5) the
lock mutation never modifies a row of another tenant, and any row it does
modify carries the caller's tenant id. -/
theorem tenant_isolation_of_data_access
    (tenants : List Tenant) (url : String) (u : UserCtx) (isDev : Bool)
    (devDefault : Option String) (users : List UserRow)
    (jv : String → JwtResult) (hdr : Option String)
    (contracts : List Contract) (vendors : List Vendor) (tid cid uid : String) :
    (u.tenant_id ≠ "" →
      ∀ rid, tenantMiddleware tenants url (some u) isDev devDefault = .resolved rid →
        rid = u.tenant_id) ∧
    (∀ uc, (authenticate users jv hdr).user = some uc →
        ∃ r, r ∈ users ∧ uc.tenant_id = r.tenant_id) ∧
    (∀ c, getContractById contracts vendors tid cid = .found 200 c →
        c.tenant_id = tid) ∧
    ((∀ c, c ∈ contracts → c.id = cid → c.tenant_id ≠ tid) →
        getContractById contracts vendors tid cid = .notFound 404) ∧
    (∀ c, c ∈ contracts → c.tenant_id ≠ tid → lockOne uid cid tid c = c) ∧
    (∀ c, lockOne uid cid tid c ≠ c → c.tenant_id = tid) := by
  refine ⟨?_, ?_, ?_, ?_, ?_, ?_⟩
  · intro hne rid hres
    by_cases hskip : strStartsWith url "/api/v1/auth"
    · simp [tenantMiddleware, hskip] at hres
    · simp [tenantMiddleware, hskip, hne] at hres
      rcases hfind : List.find? (fun t => t.id == u.tenant_id) tenants with _ | t <;>
        rw [hfind] at hres
      · simp at hres
      · by_cases hact : t.status = "active"
        · simp only [hact, if_true] at hres
          simp at hres
          rw [← hres]
          have hp : (t.id == u.tenant_id) = true :=
            @find?_sat Tenant (fun t => t.id == u.tenant_id) tenants t hfind
          exact beq_iff_eq.mp hp
        · simp [hact] at hres
  · intro uc huc
    cases hdr with
    | none => simp [authenticate] at huc
    | some h =>
      by_cases hb : strStartsWith h "Bearer "
      · cases hjv : jv (h.drop 7) with
        | ok uid2 =>
          cases hfa : findActiveUser users uid2 with
          | none => simp [authenticate, hb, hjv, hfa] at huc
          | some r =>
            refine ⟨r, ?_, ?_⟩
            · have : r ∈ users.filter
                  (fun w => w.id == uid2 && w.user_status == "active" &&
                    w.tenant_status == "active") :=
                List.mem_of_mem_head? hfa
              exact (List.mem_filter.mp this).1
            · simp [authenticate, hb, hjv, hfa] at huc
              rw [← huc]
        | expiredError => simp [authenticate, hb, hjv] at huc
        | invalidError => simp [authenticate, hb, hjv] at huc
      · simp [authenticate, hb] at huc
  · intro c hc
    rcases hq : contractByIdQuery contracts vendors cid tid with _ | ⟨c0, rest⟩ <;>
      simp only [getContractById, hq] at hc
    · cases hc
    · cases hc
      have : c ∈ contracts.filter
          (fun c => c.id == cid && c.tenant_id == tid &&
            vendors.any (fun v => v.id == c.vendor_id)) := by
        rw [← contractByIdQuery]
        exact hq ▸ List.mem_cons_self c rest
      have hpred := (List.mem_filter.mp this).2
      have : (c.tenant_id == tid) = true := by
        simp only [Bool.and_eq_true] at hpred
        exact hpred.1.2
      exact beq_iff_eq.mp this
  · intro hall
    have hq : contractByIdQuery contracts vendors cid tid = [] := by
      rw [contractByIdQuery, List.filter_eq_nil_iff]
      intro c hc
      intro hpred
      simp only [Bool.and_eq_true, beq_iff_eq] at hpred
      exact hall c hc hpred.1.1 hpred.1.2
    simp [getContractById, hq]
  · intro c _ hct
    have : (c.tenant_id == tid) = false := by simpa using hct
    simp [lockOne, this]
  · intro c hch
    by_contra hct
    have : (c.tenant_id == tid) = false := by simpa using hct
    simp [lockOne, this] at hch

/-- Witness for C1: with two tenants in the database, tenant `t1`'s admin
requesting tenant `t2`'s contract gets 404, and the resolved tenant id is
the caller's own. -/
theorem tenant_isolation_witness :
    (∀ rid,
      tenantMiddleware [⟨"t1", "Acme", "active"⟩, ⟨"t2", "Globex", "active"⟩]
        "/api/v1/contracts/c2" (some ⟨"u1", "a@x", "t1", "buyer_admin"⟩) false none =
        .resolved rid → rid = "t1") ∧
    getContractById [⟨"c2", "t2", "v1", "MSA", "body", "draft", none⟩]
      [⟨"v1", "VendorOne", "active"⟩] "t1" "c2" = .notFound 404 := by
  have h := tenant_isolation_of_data_access
    [⟨"t1", "Acme", "active"⟩, ⟨"t2", "Globex", "active"⟩]
    "/api/v1/contracts/c2" ⟨"u1", "a@x", "t1", "buyer_admin"⟩ false none
    [] (fun _ => JwtResult.invalidError) none
    [⟨"c2", "t2", "v1", "MSA", "body", "draft", none⟩]
    [⟨"v1", "VendorOne", "active"⟩] "t1" "c2" "u1"
  exact ⟨h.1 (by decide), h.2.2.2.1 (by decide)⟩

/-- Helper: overwriting key `k` rewrites exactly the value that `getField`
sees at `k`. -/
theorem getField_setField (b : List (String × JValue)) (k : String) (v : JValue) :
    getField (setField b k v) k = (getField b k).map (fun _ => v) := by
  induction b with
  | nil => rfl
  | cons p rest ih =>
    by_cases h : p.1 == k
    · simp [getField, setField, h]
    · simp [getField, setField, h, ih]

/-- Helper: overwriting key `k'` leaves every other key's value unchanged. -/
theorem getField_setField_other (b : List (String × JValue)) (k k' : String)
    (v : JValue) (hne : (k' == k) = false) :
    getField (setField b k' v) k = getField b k := by
  induction b with
  | nil => rfl
  | cons p rest ih =>
    by_cases h : p.1 == k'
    · have hp : p.1 = k' := by simpa using h
      simp [getField, setField, h, hp, hne, ih]
    · simp [getField, setField, h, ih]

/-- Helper: a redaction step for key `k'` does not touch key `k`. -/
theorem getField_redactStep_other (b : List (String × JValue)) (k k' : String)
    (hne : (k' == k) = false) :
    getField (redactStep k' b) k = getField b k := by
  by_cases h : fieldTruthy b k' <;>
    simp [redactStep, h, getField_setField_other b k k' _ hne]

/-- Helper: a redaction step for key `k'` preserves key `k`'s truthiness. -/
theorem fieldTruthy_redactStep_other (b : List (String × JValue)) (k k' : String)
    (hne : (k' == k) = false) :
    fieldTruthy (redactStep k' b) k = fieldTruthy b k := by
  simp [fieldTruthy, getField_redactStep_other b k k' hne]

/-- Helper: a redaction step replaces a truthy field with the placeholder. -/
theorem getField_redactStep_sets (b : List (String × JValue)) (k : String)
    (h : fieldTruthy b k = true) :
    getField (redactStep k b) k = some (JValue.str "[REDACTED]") := by
  rcases hg : getField b k with _ | w
  · simp [fieldTruthy, hg] at h
  · simp [redactStep, h, getField_setField, hg]

/-- Helper: `sanitizeFields` replaces every truthy credential field with the
fixed placeholder. -/
theorem sanitizeFields_redacts (b : List (String × JValue)) :
    (fieldTruthy b "password" = true →
      getField (sanitizeFields b) "password" = some (JValue.str "[REDACTED]")) ∧
    (fieldTruthy b "password_hash" = true →
      getField (sanitizeFields b) "password_hash" = some (JValue.str "[REDACTED]")) ∧
    (fieldTruthy b "token" = true →
      getField (sanitizeFields b) "token" = some (JValue.str "[REDACTED]")) := by
  refine ⟨?_, ?_, ?_⟩
  · intro ht
    rw [sanitizeFields,
      getField_redactStep_other _ "password" "token" (by decide),
      getField_redactStep_other _ "password" "password_hash" (by decide)]
    exact getField_redactStep_sets b "password" ht
  · intro ht
    rw [sanitizeFields,
      getField_redactStep_other _ "password_hash" "token" (by decide)]
    refine getField_redactStep_sets _ "password_hash" ?_
    rw [fieldTruthy_redactStep_other _ "password_hash" "password" (by decide)]
    exact ht
  · intro ht
    rw [sanitizeFields]
    refine getField_redactStep_sets _ "token" ?_
    rw [fieldTruthy_redactStep_other _ "token" "password_hash" (by decide),
      fieldTruthy_redactStep_other _ "token" "password" (by decide)]
    exact ht

/-- C4 counterexample: for a request whose body holds a field literally
named `password` with a falsy value (the empty string), the single audit
row's stored detail keeps that field unreplaced — `sanitizeBody` only
overwrites truthy fields — so the claim "every field literally named
password/password_hash/token is replaced with a fixed placeholder" is false
at this concrete input. -/
theorem audit_redaction_counterexample :
    (auditFinish
        ⟨"POST", "/api/v1/auth/login", some ⟨"u1", "a@x", "t1", "buyer_admin"⟩,
          some "t1", none, some [("password", JValue.str "")], "10.0.0.1", "ua"⟩
        200 none).map (fun row => row.details.body) =
      [some [("password", JValue.str "")]] ∧
    JValue.str "" ≠ JValue.str "[REDACTED]" := by
  constructor
  · rfl
  · decide

/-- C4 (amended): for every request that reached a privileged handler (user
context present and tenant id resolved), the finish hook attempts exactly
one audit insert whatever the handler's status code; the inserted row's
detail body is the sanitized in-memory copy of the request body; and every
field literally named `password`, `password_hash` or `token` holding a
truthy value has been replaced with the fixed placeholder `[REDACTED]` on
that copy before the insert is attempted (falsy values are left as-is). -/
theorem audit_one_entry_and_truthy_redaction
    (req : Req) (statusCode : Nat) (respBody : Option (List (String × JValue)))
    (tid : String) (b : List (String × JValue)) :
    (req.user.isSome = true → req.tenantId = some tid →
      (auditFinish req statusCode respBody).length = 1) ∧
    (∀ row, row ∈ auditFinish req statusCode respBody →
      row.details.body = sanitizeBody req.body) ∧
    (req.body = some b →
      ∀ k, (k = "password" ∨ k = "password_hash" ∨ k = "token") →
        fieldTruthy b k = true →
        sanitizeBody req.body = some (sanitizeFields b) ∧
        getField (sanitizeFields b) k = some (JValue.str "[REDACTED]")) := by
  refine ⟨?_, ?_, ?_⟩
  · intro huser htid
    have hsa : shouldAudit req statusCode = true := by
      simp [shouldAudit, huser]
    simp [auditFinish, hsa, htid]
  · intro row hrow
    by_cases hsa : shouldAudit req statusCode
    · rcases htid : req.tenantId with _ | tid2
      · simp [auditFinish, hsa, htid] at hrow
      · simp only [auditFinish, hsa, if_true, htid, List.mem_singleton] at hrow
        rw [hrow]
    · simp [auditFinish, hsa] at hrow
  · rintro hb k hk ht
    refine ⟨by rw [hb]; rfl, ?_⟩
    rcases hk with rfl | rfl | rfl
    · exact (sanitizeFields_redacts b).1 ht
    · exact (sanitizeFields_redacts b).2.1 ht
    · exact (sanitizeFields_redacts b).2.2 ht

/-- Witness for C4 (amended): a concrete privileged request with a truthy
`password` field yields exactly one attempted audit row, and the sanitized
copy holds the placeholder at `password`. -/
theorem audit_one_entry_redaction_witness :
    (auditFinish
        ⟨"POST", "/api/v1/admin/users", some ⟨"u1", "a@x", "t1", "buyer_admin"⟩,
          some "t1", none, some [("email", JValue.str "b@x"), ("password", JValue.str "hunter2")],
          "10.0.0.1", "ua"⟩ 201 none).length = 1 ∧
    getField (sanitizeFields [("email", JValue.str "b@x"), ("password", JValue.str "hunter2")])
        "password" = some (JValue.str "[REDACTED]") := by
  have h := audit_one_entry_and_truthy_redaction
    ⟨"POST", "/api/v1/admin/users", some ⟨"u1", "a@x", "t1", "buyer_admin"⟩,
      some "t1", none, some [("email", JValue.str "b@x"), ("password", JValue.str "hunter2")],
      "10.0.0.1", "ua"⟩ 201 none "t1"
    [("email", JValue.str "b@x"), ("password", JValue.str "hunter2")]
  exact ⟨h.1 rfl rfl, (h.2.2 rfl "password" (Or.inl rfl) (by decide)).2⟩

/-- C5: an audit-insert failure never alters the business operation's
response: the status and body the handler produced are returned unchanged
for every insert outcome, and when the insert fails on a qualifying request
the failure itself is written to the process-level error log. -/
theorem audit_failure_never_alters_response
    (req : Req) (resp : HttpResponse) (insertErr : Option String) :
    (completeRequest req resp insertErr).response = resp ∧
    (∀ e, insertErr = some e →
      auditFinish req resp.statusCode resp.body ≠ [] →
      (completeRequest req resp insertErr).errorLog =
        ["Audit log insertion failed: " ++ e]) := by
  constructor
  · rcases h : auditFinish req resp.statusCode resp.body with _ | ⟨row, rest⟩ <;>
      cases insertErr <;> simp [completeRequest, h]
  · intro e he hne
    rcases h : auditFinish req resp.statusCode resp.body with _ | ⟨row, rest⟩
    · exact absurd h hne
    · subst he
      simp [completeRequest, h]

/-- Witness for C5: a concrete qualifying request whose audit insert fails
with a database error still answers the handler's 201 response, and the
failure lands in the process error log. -/
theorem audit_failure_witness :
    (completeRequest
        ⟨"POST", "/api/v1/contracts", some ⟨"u1", "a@x", "t1", "buyer_admin"⟩,
          some "t1", none, none, "10.0.0.1", "ua"⟩
        ⟨201, none⟩ (some "connection refused")).response = ⟨201, none⟩ ∧
    (completeRequest
        ⟨"POST", "/api/v1/contracts", some ⟨"u1", "a@x", "t1", "buyer_admin"⟩,
          some "t1", none, none, "10.0.0.1", "ua"⟩
        ⟨201, none⟩ (some "connection refused")).errorLog =
      ["Audit log insertion failed: connection refused"] := by
  have h := audit_failure_never_alters_response
    ⟨"POST", "/api/v1/contracts", some ⟨"u1", "a@x", "t1", "buyer_admin"⟩,
      some "t1", none, none, "10.0.0.1", "ua"⟩
    ⟨201, none⟩ (some "connection refused")
  exact ⟨h.1, h.2 "connection refused" rfl (by decide)⟩

/-- Helper: a conditional update whose condition holds nowhere in the list
is the identity. -/
theorem map_ite_id {α : Type} (l : List α) (c : α → Bool) (g : α → α)
    (h : ∀ x ∈ l, c x = false) :
    l.map (fun x => if c x then g x else x) = l := by
  induction l with
  | nil => rfl
  | cons x rest ih =>
    simp [h x (List.mem_cons_self x rest),
      ih (fun y hy => h y (List.mem_cons_of_mem x hy))]

/-- Helper: a first-row lookup skips a prefix on which the predicate is
everywhere false. -/
theorem firstWhere_append_of_false {α : Type} (p : α → Bool) (l1 l2 : List α)
    (h : ∀ x ∈ l1, p x = false) :
    firstWhere p (l1 ++ l2) = firstWhere p l2 := by
  induction l1 with
  | nil => rfl
  | cons x rest ih =>
    simp [firstWhere, h x (List.mem_cons_self x rest),
      ih (fun y hy => h y (List.mem_cons_of_mem x hy))]

/-- Helper: inserting a fresh row at the back is found by `findPO`. -/
theorem findPO_append_fresh (db : List PurchaseOrder) (q : PurchaseOrder)
    (hfresh : ∀ p ∈ db, p.id ≠ q.id) :
    findPO (db ++ [q]) q.id = some q := by
  rw [findPO, firstWhere_append_of_false]
  · simp [firstWhere]
  · intro p hp
    simpa using hfresh p hp

/-- Helper: the exact outcome of the purchase-order create route when an ERP
system is configured and the remote call throws `e`: the row is first
inserted as `'pending'`, the remote call fails, and the row is annotated
failed; the response is still 201 with the inserted row. -/
theorem createPO_error_shape (db : List PurchaseOrder) (tid uid : String)
    (input : POInput) (erp e newId poNumber : String)
    (hsys : input.erp_system = some erp) (herp : (erp == "") = false)
    (hfresh : ∀ p ∈ db, p.id ≠ newId) :
    createPurchaseOrder db tid uid input newId poNumber (.error e) =
      ⟨db ++ [{ id := newId, tenant_id := tid, po_number := poNumber,
                contract_id := input.contract_id, vendor_id := input.vendor_id,
                status := "draft", total_amount := input.total_amount,
                currency := input.currency, line_items := input.line_items,
                erp_system := input.erp_system, erp_po_id := none,
                erp_sync_status := some "failed", erp_sync_error := some e,
                created_by := uid }],
        [.localInsert newId, .remoteCreateCall newId erp,
         .statusUpdate newId "failed"],
        201,
        some { id := newId, tenant_id := tid, po_number := poNumber,
               contract_id := input.contract_id, vendor_id := input.vendor_id,
               status := "draft", total_amount := input.total_amount,
               currency := input.currency, line_items := input.line_items,
               erp_system := input.erp_system, erp_po_id := none,
               erp_sync_status := some "pending", erp_sync_error := none,
               created_by := uid }⟩ := by
  have hfalse : ∀ p ∈ db, (p.id == newId) = false := by
    intro p hp
    simpa using hfresh p hp
  simp only [createPurchaseOrder, hsys, herp, syncPOToERP]
  simp only [List.map_append, List.map_cons, List.map_nil]
  rw [map_ite_id db _ _ hfalse]
  simp

/-- C7 (code defect): the manual re-sync of an already-synced purchase order
— `erp_sync_status = 'synced'` and `erp_po_id` already assigned — still
performs the remote create call, because `syncPOToERP` never checks
`erp_po_id` before re-creating; two sequential re-syncs therefore issue two
remote create calls in total, not one as the idempotence claim requires. -/
theorem resync_of_synced_po_repeats_remote_create :
    countRemoteCalls (manualSyncTwice
      [{ id := "po1", tenant_id := "t1", po_number := "PO-2025-00001",
         contract_id := none, vendor_id := "v1", status := "draft",
         total_amount := 100, currency := "USD",
         line_items := [JValue.str "10 laptops"],
         erp_system := some "SAP", erp_po_id := some "ERP-po1",
         erp_sync_status := some "synced", erp_sync_error := none,
         created_by := "u1" }] "t1" "po1").2 = 2 := by
  rfl

/-- C8: advisory data never changes enforcement state by itself: every
penalty created via `POST /penalties` is appended with status `'pending'`;
the approve route's update turns a row into `'approved'` only when it was
`'pending'` (and in the caller's tenant); and across the whole penalties
surface, any row that is `'approved'` after an operation either was already
in the table before it, or the operation was the approve action applied to a
previously `'pending'` row. -/
theorem penalty_pending_until_separate_approval
    (db : List Penalty) (tid uid newId pid : String) (input : PenaltyInput)
    (op : PenaltyOp) :
    ((createPenalty db tid uid newId input).2.status = "pending") ∧
    ((createPenalty db tid uid newId input).1 =
      db ++ [(createPenalty db tid uid newId input).2]) ∧
    (∀ p : Penalty, approveOne uid pid tid p ≠ p →
      p.status = "pending" ∧ (approveOne uid pid tid p).status = "approved") ∧
    (∀ q, q ∈ applyPenaltyOp db op → q.status = "approved" →
      q ∈ db ∨ ∃ tid2 uid2 pid2, op = .approveOp tid2 uid2 pid2 ∧
        ∃ p, p ∈ db ∧ q = approveOne uid2 pid2 tid2 p ∧ p.status = "pending") := by
  refine ⟨rfl, rfl, ?_, ?_⟩
  · intro p hne
    by_cases hc : (p.id == pid && p.tenant_id == tid && p.status == "pending") = true
    · constructor
      · have := hc
        simp only [Bool.and_eq_true, beq_iff_eq] at this
        exact this.2
      · simp [approveOne, hc]
    · exfalso
      apply hne
      simp only [approveOne]
      rw [Bool.not_eq_true] at hc
      simp [hc]
  · intro q hq happ
    cases op with
    | createOp tid2 uid2 newId2 input2 =>
      left
      simp only [applyPenaltyOp, createPenalty, List.mem_append,
        List.mem_singleton] at hq
      rcases hq with hq | hq
      · exact hq
      · exfalso
        rw [hq] at happ
        simp at happ
    | approveOp tid2 uid2 pid2 =>
      simp only [applyPenaltyOp, approvePenalty, List.mem_map] at hq
      rcases hq with ⟨p, hp, hqp⟩
      by_cases heq : approveOne uid2 pid2 tid2 p = p
      · left
        rw [← hqp, heq]
        exact hp
      · right
        refine ⟨tid2, uid2, pid2, rfl, p, hp, hqp.symm, ?_⟩
        by_cases hc : (p.id == pid2 && p.tenant_id == tid2 && p.status == "pending") = true
        · have := hc
          simp only [Bool.and_eq_true, beq_iff_eq] at this
          exact this.2
        · exfalso
          apply heq
          simp only [approveOne]
          rw [Bool.not_eq_true] at hc
          simp [hc]
    | listOp tid2 v s =>
      left
      exact hq

/-- Witness for C8: a concrete created penalty is `'pending'`, and approving
a concrete pending penalty flips exactly it to `'approved'`. -/
theorem penalty_pending_witness :
    (createPenalty [] "t1" "u1" "p1"
        ⟨"v1", none, "late_delivery", 50, none, "SLA breach"⟩).2.status =
      "pending" ∧
    (⟨"p1", "t1", "v1", none, "late_delivery", 50, "USD", "SLA breach",
        false, some "No bias patterns detected", "pending", none, "u1"⟩ :
        Penalty).status = "pending" ∧
    (approveOne "u1" "p1" "t1"
        ⟨"p1", "t1", "v1", none, "late_delivery", 50, "USD", "SLA breach",
         false, some "No bias patterns detected", "pending", none, "u1"⟩).status =
      "approved" := by
  have h := penalty_pending_until_separate_approval [] "t1" "u1" "p1" "p1"
    ⟨"v1", none, "late_delivery", 50, none, "SLA breach"⟩ (.listOp "t1" none none)
  have h3 := h.2.2.1
    ⟨"p1", "t1", "v1", none, "late_delivery", 50, "USD", "SLA breach",
     false, some "No bias patterns detected", "pending", none, "u1"⟩ (by decide)
  exact ⟨h.1, h3.1, h3.2⟩

/-- C9: the provider-fetch retry loop is bounded and backs off
exponentially: every trace contains at most `maxAttempts = 3` provider
calls; an immediate success makes exactly one call; a failure followed by a
success waits `2^1 * 1000` ms in between; and when all three attempts fail
the loop terminates surfacing
`'Failed to fetch risk data after 3 attempts: ' + `(last error), having
waited `2^1 * 1000` ms after the first failure and `2^2 * 1000` ms after the
second — so a failing remote dependency never blocks the request beyond the
bound. -/
theorem fetch_retry_bounded_exponential_backoff
    (oc : Nat → Option String) (data : RiskData) :
    (countAttempts (fetchRiskData oc data).1 ≤ maxAttempts) ∧
    (oc 0 = none →
      fetchRiskData oc data = ([.attemptCall 0], .ok data)) ∧
    (∀ m0, oc 0 = some m0 → oc 1 = none →
      fetchRiskData oc data =
        ([.attemptCall 0, .backoffWaitMs 2000, .attemptCall 1], .ok data)) ∧
    (∀ m0 m1, oc 0 = some m0 → oc 1 = some m1 → oc 2 = none →
      fetchRiskData oc data =
        ([.attemptCall 0, .backoffWaitMs 2000, .attemptCall 1,
          .backoffWaitMs 4000, .attemptCall 2], .ok data)) ∧
    (∀ m0 m1 m2, oc 0 = some m0 → oc 1 = some m1 → oc 2 = some m2 →
      fetchRiskData oc data =
        ([.attemptCall 0, .backoffWaitMs 2000, .attemptCall 1,
          .backoffWaitMs 4000, .attemptCall 2],
         .error ("Failed to fetch risk data after " ++ toString maxAttempts ++
           " attempts: " ++ m2))) := by
  refine ⟨?_, ?_, ?_, ?_, ?_⟩
  · rcases h0 : oc 0 with _ | m0
    · simp [fetchRiskData, fetchRiskDataGo, maxAttempts, h0, countAttempts]
    · rcases h1 : oc 1 with _ | m1
      · simp [fetchRiskData, fetchRiskDataGo, maxAttempts, h0, h1, countAttempts]
      · rcases h2 : oc 2 with _ | m2 <;>
          simp [fetchRiskData, fetchRiskDataGo, maxAttempts, h0, h1, h2,
            countAttempts]
  · intro h0
    simp [fetchRiskData, fetchRiskDataGo, maxAttempts, h0]
  · intro m0 h0 h1
    simp [fetchRiskData, fetchRiskDataGo, maxAttempts, h0, h1]
  · intro m0 m1 h0 h1 h2
    simp [fetchRiskData, fetchRiskDataGo, maxAttempts, h0, h1, h2]
  · intro m0 m1 m2 h0 h1 h2
    simp [fetchRiskData, fetchRiskDataGo, maxAttempts, h0, h1, h2]

/-- Witness for C9: a provider that always times out produces exactly the
bounded backoff trace and the preserved, surfaced error. -/
theorem fetch_retry_witness :
    fetchRiskData (fun _ => some "ETIMEDOUT") ⟨50, "A"⟩ =
      ([.attemptCall 0, .backoffWaitMs 2000, .attemptCall 1,
        .backoffWaitMs 4000, .attemptCall 2],
       .error ("Failed to fetch risk data after " ++ toString maxAttempts ++
         " attempts: " ++ "ETIMEDOUT")) :=
  (fetch_retry_bounded_exponential_backoff (fun _ => some "ETIMEDOUT")
    ⟨50, "A"⟩).2.2.2.2 "ETIMEDOUT" "ETIMEDOUT" "ETIMEDOUT" rfl rfl rfl

/-- C10: an assessment whose fetched score is at least 50 maps to level
`'high'` or `'critical'`; for those levels `checkRiskThresholds` throws the
`req`-out-of-scope ReferenceError after the assessment row was already
inserted, so the route answers 500 while the row stays persisted and no
`risk_alerts` row is written; a score below 50 yields a 201 with the created
assessment; and a creation can only complete successfully when the computed
level is `'low'` or `'medium'`. -/
theorem high_risk_assessment_errors_after_insert
    (vendors : List Vendor) (st : RiskState) (tid vid prov : String)
    (rd : RiskData) :
    (50 ≤ rd.risk_score →
      (calculateRiskLevel rd.risk_score = "critical" ∨
        calculateRiskLevel rd.risk_score = "high") ∧
      (createAssessment vendors st tid vid prov (.ok rd)).2 =
        .serverError 500 "ReferenceError: req is not defined" ∧
      (⟨tid, vid, rd.risk_score, calculateRiskLevel rd.risk_score, prov⟩ :
          RiskAssessment) ∈
        (createAssessment vendors st tid vid prov (.ok rd)).1.assessments ∧
      (createAssessment vendors st tid vid prov (.ok rd)).1.alerts = st.alerts) ∧
    (rd.risk_score < 50 →
      (createAssessment vendors st tid vid prov (.ok rd)).2 =
        .created 201 ⟨tid, vid, rd.risk_score, calculateRiskLevel rd.risk_score, prov⟩) ∧
    (∀ a, (createAssessment vendors st tid vid prov (.ok rd)).2 = .created 201 a →
      a.risk_level = "low" ∨ a.risk_level = "medium") := by
  refine ⟨?_, ?_, ?_⟩
  · intro hge
    have hlevel : calculateRiskLevel rd.risk_score = "critical" ∨
        calculateRiskLevel rd.risk_score = "high" := by
      by_cases h75 : rd.risk_score ≥ 75
      · left
        simp [calculateRiskLevel, h75]
      · right
        simp [calculateRiskLevel, h75, hge]
    have hchk : checkRiskThresholds vid rd.risk_score
        (calculateRiskLevel rd.risk_score) = .error "req is not defined" := by
      rcases hlevel with hl | hl <;> simp [checkRiskThresholds, hl]
    refine ⟨hlevel, ?_, ?_, ?_⟩
    · simp [createAssessment, hchk]
    · simp [createAssessment, hchk]
    · simp [createAssessment, hchk]
  · intro hlt
    have h75 : ¬ (rd.risk_score ≥ 75) := by
      intro h
      exact absurd (le_trans (by norm_num) h) (not_le.mpr hlt)
    have h50 : ¬ (rd.risk_score ≥ 50) := not_le.mpr hlt
    have hchk : checkRiskThresholds vid rd.risk_score
        (calculateRiskLevel rd.risk_score) = .ok () := by
      by_cases h25 : rd.risk_score ≥ 25 <;>
        simp [checkRiskThresholds, calculateRiskLevel, h75, h50, h25]
    simp [createAssessment, hchk]
  · intro a ha
    rcases hchk : checkRiskThresholds vid rd.risk_score
        (calculateRiskLevel rd.risk_score) with m | u
    · simp [createAssessment, hchk] at ha
    · have hcond : (calculateRiskLevel rd.risk_score == "critical" ||
          calculateRiskLevel rd.risk_score == "high") = false := by
        by_contra hcond
        rw [Bool.not_eq_false] at hcond
        simp [checkRiskThresholds, hcond] at hchk
      simp only [Bool.or_eq_false_iff, beq_eq_false_iff_ne] at hcond
      have hlevel : calculateRiskLevel rd.risk_score = "medium" ∨
          calculateRiskLevel rd.risk_score = "low" := by
        by_cases h75 : rd.risk_score ≥ 75
        · exact absurd (by simp [calculateRiskLevel, h75]) hcond.1
        · by_cases h50 : rd.risk_score ≥ 50
          · exact absurd (by simp [calculateRiskLevel, h75, h50]) hcond.2
          · by_cases h25 : rd.risk_score ≥ 25
            · left
              simp [calculateRiskLevel, h75, h50, h25]
            · right
              simp [calculateRiskLevel, h75, h50, h25]
      have haa : a = ⟨tid, vid, rd.risk_score,
          calculateRiskLevel rd.risk_score, prov⟩ := by
        simp [createAssessment, hchk] at ha
        exact ha.symm
      rw [haa]
      rcases hlevel with hl | hl
      · right
        exact hl
      · left
        exact hl

/-- Witness for C10: a concrete score of 62 (level `'high'`) makes the route
answer 500 while the assessment row is persisted, with no alert row
written. -/
theorem high_risk_assessment_witness :
    (calculateRiskLevel (62 : Rat) = "critical" ∨
      calculateRiskLevel (62 : Rat) = "high") ∧
    (createAssessment [] ⟨[], [], []⟩ "t1" "v1" "Moodys"
        (.ok ⟨62, "A"⟩)).2 =
      .serverError 500 "ReferenceError: req is not defined" ∧
    (⟨"t1", "v1", (62 : Rat), calculateRiskLevel (62 : Rat), "Moodys"⟩ :
        RiskAssessment) ∈
      (createAssessment [] ⟨[], [], []⟩ "t1" "v1" "Moodys"
        (.ok ⟨62, "A"⟩)).1.assessments ∧
    (createAssessment [] ⟨[], [], []⟩ "t1" "v1" "Moodys"
        (.ok ⟨62, "A"⟩)).1.alerts = ([] : List String) :=
  (high_risk_assessment_errors_after_insert [] ⟨[], [], []⟩ "t1" "v1" "Moodys"
    ⟨62, "A"⟩).1 (by norm_num)

/-- C6 (code defect), evaluated at the concrete scenario. Creating a PO with
`erp_system = 'SAP'` against a failing remote behaves as specified: the
local insert strictly precedes the remote attempt in the trace, the route
answers 201, and the row survives annotated `'failed'` with the non-null
error string and unchanged core fields. But the claim's subsequent
*successful* manual sync cannot happen: with the remote call succeeding, the
row is updated to `'synced'` with `erp_po_id = 'ERP-po1'` (core fields still
unchanged), yet `syncPOToERP` then throws the `integration_sync_logs`
not-null violation (`integration_id` inserted as null against a NOT NULL
column), so the manual-sync route answers 503 — it never reports success.
Likewise a create whose remote call succeeds ends with its row annotated
`'failed'` (the `'synced'` status overwritten by the catch), carrying the
violation message. -/
theorem po_local_commit_survives_but_sync_never_succeeds :
    (createPurchaseOrder [] "t1" "u1"
        ⟨"v1", none, 100, "USD", [JValue.str "10 laptops"], some "SAP"⟩
        "po1" "PO-2025-00001" (.error "ECONNREFUSED")).events =
      [.localInsert "po1", .remoteCreateCall "po1" "SAP",
       .statusUpdate "po1" "failed"] ∧
    (createPurchaseOrder [] "t1" "u1"
        ⟨"v1", none, 100, "USD", [JValue.str "10 laptops"], some "SAP"⟩
        "po1" "PO-2025-00001" (.error "ECONNREFUSED")).resStatus = 201 ∧
    (createPurchaseOrder [] "t1" "u1"
        ⟨"v1", none, 100, "USD", [JValue.str "10 laptops"], some "SAP"⟩
        "po1" "PO-2025-00001" (.error "ECONNREFUSED")).db =
      [⟨"po1", "t1", "PO-2025-00001", none, "v1", "draft", 100, "USD",
        [JValue.str "10 laptops"], some "SAP", none, some "failed",
        some "ECONNREFUSED", "u1"⟩] ∧
    (manualSyncPO
        [⟨"po1", "t1", "PO-2025-00001", none, "v1", "draft", 100, "USD",
          [JValue.str "10 laptops"], some "SAP", none, some "failed",
          some "ECONNREFUSED", "u1"⟩] "t1" "po1" (.ok ())).events =
      [.remoteCreateCall "po1" "SAP", .statusUpdate "po1" "synced",
       .syncLogInsert none "success"] ∧
    (manualSyncPO
        [⟨"po1", "t1", "PO-2025-00001", none, "v1", "draft", 100, "USD",
          [JValue.str "10 laptops"], some "SAP", none, some "failed",
          some "ECONNREFUSED", "u1"⟩] "t1" "po1" (.ok ())).db =
      [⟨"po1", "t1", "PO-2025-00001", none, "v1", "draft", 100, "USD",
        [JValue.str "10 laptops"], some "SAP", some "ERP-po1", some "synced",
        some "ECONNREFUSED", "u1"⟩] ∧
    (manualSyncPO
        [⟨"po1", "t1", "PO-2025-00001", none, "v1", "draft", 100, "USD",
          [JValue.str "10 laptops"], some "SAP", none, some "failed",
          some "ECONNREFUSED", "u1"⟩] "t1" "po1" (.ok ())).response =
      .syncFailed 503 syncLogNotNullError true ∧
    (createPurchaseOrder [] "t1" "u1"
        ⟨"v1", none, 100, "USD", [JValue.str "10 laptops"], some "SAP"⟩
        "po2" "PO-2025-00002" (.ok ())).db =
      [⟨"po2", "t1", "PO-2025-00002", none, "v1", "draft", 100, "USD",
        [JValue.str "10 laptops"], some "SAP", some "ERP-po2", some "failed",
        some syncLogNotNullError, "u1"⟩] ∧
    (createPurchaseOrder [] "t1" "u1"
        ⟨"v1", none, 100, "USD", [JValue.str "10 laptops"], some "SAP"⟩
        "po2" "PO-2025-00002" (.ok ())).resStatus = 201 :=
  ⟨rfl, rfl, rfl, rfl, rfl, rfl, rfl, rfl⟩

end VendorMgmt
